import Mathlib

/-!
Verification of the Kenya energy dashboard's data pipeline
(`energy_dashboard.py`): the acquisition function `get_kenya_power_data`
and the normalizer `process_kenya_data`, together with the derived
renewable-share aggregate `renewable_pct`.

Numbers are modelled as exact rationals (ℚ); Python dicts become
association lists preserving insertion order; the `st.warning` side
effect of the acquisition function is modelled as an optional warning
string in its output.
-/

/-- One energy source's contribution in a snapshot: the record with
keys source, value and percentage built by `process_kenya_data`. -/
structure PowerRecord where
  source : String
  value : ℚ
  percentage : ℚ
deriving DecidableEq, Repr

/-- The decoded API payload as far as the pipeline reads it: the
`powerProductionBreakdown` mapping (absent when the key is missing;
entries may carry `None` values) and the optional `datetime` field. -/
structure ApiData where
  powerProductionBreakdown : Option (List (String × Option ℚ))
  datetime : Option String
deriving DecidableEq, Repr

/-- The 4-tuple returned by `process_kenya_data`:
`(records, timestamp, total, data_source)`. -/
structure SnapshotResult where
  records : List PowerRecord
  timestamp : String
  total : ℚ
  dataSource : String
deriving DecidableEq, Repr

/-- `KENYA_ENERGY_MIX`: the static fallback table mapping display name
to percentage (energy_dashboard.py lines 24–33). -/
def KENYA_ENERGY_MIX : List (String × ℚ) :=
  [("Hydro", 36.2),
   ("Geothermal", 31.1),
   ("Thermal (Oil/Gas)", 12.7),
   ("Wind", 8.9),
   ("Solar", 6.8),
   ("Biomass", 2.1),
   ("Battery Storage", 1.2),
   ("Imports", 1.0)]

/-- `source_mappings`: the static raw-code → display-name table declared
inside `process_kenya_data` (lines 58–70). -/
def source_mappings : List (String × String) :=
  [("hydro", "Hydro"),
   ("geothermal", "Geothermal"),
   ("oil", "Thermal (Oil)"),
   ("gas", "Natural Gas"),
   ("wind", "Wind"),
   ("solar", "Solar"),
   ("biomass", "Biomass"),
   ("battery", "Battery Storage"),
   ("coal", "Coal"),
   ("nuclear", "Nuclear"),
   ("unknown", "Other")]

/-- One step of Python's `str.title()`: an alphabetic character is
uppercased when it follows a non-alphabetic position and lowercased
otherwise; the Bool tracks whether the previous character was
alphabetic. -/
def titleStep (acc : String × Bool) (c : Char) : String × Bool :=
  if c.isAlpha then
    (acc.1.push (if acc.2 then c.toLower else c.toUpper), true)
  else
    (acc.1.push c, false)

/-- Python's `str.title()` (for the ASCII source codes the API uses). -/
def pyTitle (s : String) : String :=
  (s.data.foldl titleStep ("", false)).1

/-- `source_mappings.get(source, source.title())` (line 82). -/
def displayOf (source : String) : String :=
  (List.lookup source source_mappings).getD (pyTitle source)

/-- One iteration of the live-path loop (lines 80–88): skip entries whose
value is `None` or not strictly positive; otherwise append a record with
percentage placeholder 0 and add the value to the running total. -/
def liveStep (acc : List PowerRecord × ℚ) (p : String × Option ℚ) :
    List PowerRecord × ℚ :=
  match p.2 with
  | none => acc
  | some v =>
      if 0 < v then
        (acc.1 ++ [⟨displayOf p.1, v, 0⟩], acc.2 + v)
      else
        acc

/-- The fallback branch of `process_kenya_data` (lines 96–111): one
record per `KENYA_ENERGY_MIX` entry with `estimated_mw =
percentage / 100 * 2800`, returned with `total * 28` where `total` is
the sum of the table's percentages. -/
def fallback_result (now : String) : SnapshotResult :=
  let total := (KENYA_ENERGY_MIX.map (fun p => p.2)).sum
  let records := KENYA_ENERGY_MIX.map (fun p =>
    ⟨p.1, p.2 / 100 * 2800, p.2⟩)
  ⟨records, now, total * 28, "Estimated Data"⟩

/-- The live branch of `process_kenya_data` (lines 72–94): one loop
appending records with placeholder percentage 0 while accumulating the
total, then a second pass computing `value / total * 100` guarded by
`total > 0`. -/
def live_result (mix : List (String × Option ℚ)) (timestamp : String) :
    SnapshotResult :=
  let built := mix.foldl liveStep ([], 0)
  let total := built.2
  let records := built.1.map (fun r =>
    { r with percentage := if 0 < total then r.value / total * 100 else 0 })
  ⟨records, timestamp, total, "Live Data"⟩

/-- `process_kenya_data(api_data, use_live)` (lines 55–111).  The live
branch runs only when `use_live` is truthy, `api_data` is truthy, and
`'powerProductionBreakdown' in api_data`.  The extra `now` argument
stands for `datetime.now().isoformat()`. -/
def process_kenya_data (api_data : Option ApiData) (use_live : Bool)
    (now : String) : SnapshotResult :=
  match use_live, api_data with
  | true, some d =>
      match d.powerProductionBreakdown with
      | some mix => live_result mix (d.datetime.getD now)
      | none => fallback_result now
  | _, _ => fallback_result now

/-- The outcome of the one HTTP GET inside `get_kenya_power_data`:
either the call raised (timeout, connection error, …) with a message, or
it returned a response with a status code and a body whose JSON decoding
either fails with a message or yields a payload. -/
inductive HttpOutcome where
  | exception (msg : String)
  | response (status : Nat) (body : Except String ApiData)
deriving Repr

/-- The observable output of `get_kenya_power_data`: the returned pair
`(data, use_live)` plus the `st.warning` message when one is emitted. -/
structure FetchOutput where
  data : Option ApiData
  ok : Bool
  warning : Option String
deriving DecidableEq, Repr

/-- `get_kenya_power_data()` (lines 35–53), as a function of the HTTP
outcome.  Status 200 with a decodable body containing the breakdown key
returns `(data, True)`; a raised exception (including a JSON decode
failure on a 200 response) is caught and surfaced as a warning with the
cause, returning `(None, False)`; every other case returns
`(None, False)` with no warning. -/
def get_kenya_power_data (o : HttpOutcome) : FetchOutput :=
  match o with
  | .exception msg =>
      ⟨none, false, some ("Live data unavailable: " ++ msg)⟩
  | .response status body =>
      if status = 200 then
        match body with
        | .error msg =>
            ⟨none, false, some ("Live data unavailable: " ++ msg)⟩
        | .ok data =>
            if data.powerProductionBreakdown.isSome then
              ⟨some data, true, none⟩
            else
              ⟨none, false, none⟩
      else
        ⟨none, false, none⟩

/-- `renewable_sources` (line 276). -/
def renewable_sources : List String :=
  ["Hydro", "Geothermal", "Wind", "Solar", "Biomass"]

/-- `renewable_pct` (line 277): sum of the percentages of the records
whose source is in the renewable set. -/
def renewable_pct (records : List PowerRecord) : ℚ :=
  ((records.filter (fun r => renewable_sources.contains r.source)).map
    (fun r => r.percentage)).sum

/-- The records the live-path loop appends: one per breakdown entry whose
value is present and strictly positive, in order. -/
def posRecords (mix : List (String × Option ℚ)) : List PowerRecord :=
  mix.filterMap (fun p =>
    match p.2 with
    | none => none
    | some v => if 0 < v then some ⟨displayOf p.1, v, 0⟩ else none)

/-- Whether a breakdown entry passes the live-path guard
`value is not None and value > 0` (line 81). -/
def posEntry (p : String × Option ℚ) : Bool :=
  match p.2 with
  | none => false
  | some v => decide (0 < v)

/-- The total the live-path loop accumulates: the sum of the values of
the appended records. -/
def liveTotal (mix : List (String × Option ℚ)) : ℚ :=
  ((posRecords mix).map (fun r => r.value)).sum

lemma foldl_liveStep_spec (mix : List (String × Option ℚ)) :
    ∀ recs tot, mix.foldl liveStep (recs, tot) =
      (recs ++ posRecords mix, tot + liveTotal mix) := by
  induction mix with
  | nil => intro recs tot; simp [posRecords, liveTotal]
  | cons p rest ih =>
      intro recs tot
      rcases p with ⟨s, v?⟩
      cases v? with
      | none =>
          simp only [List.foldl_cons, liveStep]
          simpa [posRecords, liveTotal, List.filterMap_cons] using ih recs tot
      | some v =>
          by_cases hv : 0 < v
          · simp only [List.foldl_cons, liveStep, hv, if_pos]
            rw [ih]
            simp [posRecords, liveTotal, List.filterMap_cons, hv,
              List.append_assoc, add_assoc]
          · simp only [List.foldl_cons, liveStep, hv, if_neg]
            simpa [posRecords, liveTotal, List.filterMap_cons, hv] using ih recs tot

lemma live_result_eq (mix : List (String × Option ℚ)) (ts : String) :
    live_result mix ts =
      ⟨(posRecords mix).map (fun r =>
          { r with percentage :=
              if 0 < liveTotal mix then r.value / liveTotal mix * 100 else 0 }),
        ts, liveTotal mix, "Live Data"⟩ := by
  unfold live_result
  rw [foldl_liveStep_spec]
  simp

lemma mem_posRecords {r : PowerRecord} {mix : List (String × Option ℚ)}
    (h : r ∈ posRecords mix) :
    ∃ s v, (s, some v) ∈ mix ∧ 0 < v ∧ r = ⟨displayOf s, v, 0⟩ := by
  rcases List.mem_filterMap.mp h with ⟨⟨s, v?⟩, hmem, hf⟩
  cases v? with
  | none => simp at hf
  | some v =>
      by_cases hv : 0 < v
      · refine ⟨s, v, hmem, hv, ?_⟩
        simp [hv] at hf
        exact hf.symm
      · simp [hv] at hf

lemma posRecords_value_pos {r : PowerRecord} {mix : List (String × Option ℚ)}
    (h : r ∈ posRecords mix) : 0 < r.value := by
  rcases mem_posRecords h with ⟨s, v, _, hv, rfl⟩
  exact hv

lemma posRecords_length (mix : List (String × Option ℚ)) :
    (posRecords mix).length = (mix.filter posEntry).length := by
  induction mix with
  | nil => rfl
  | cons p rest ih =>
      rcases p with ⟨s, v?⟩
      cases v? with
      | none => simpa [posRecords, posEntry, List.filterMap_cons, List.filter_cons] using ih
      | some v =>
          by_cases hv : 0 < v
          · simpa [posRecords, posEntry, List.filterMap_cons, List.filter_cons, hv] using ih
          · simpa [posRecords, posEntry, List.filterMap_cons, List.filter_cons, hv] using ih

lemma posRecords_sources (mix : List (String × Option ℚ)) :
    (posRecords mix).map (fun r => r.source) =
      (mix.filter posEntry).map (fun p => displayOf p.1) := by
  induction mix with
  | nil => rfl
  | cons p rest ih =>
      rcases p with ⟨s, v?⟩
      cases v? with
      | none => simpa [posRecords, posEntry, List.filterMap_cons, List.filter_cons] using ih
      | some v =>
          by_cases hv : 0 < v
          · simpa [posRecords, posEntry, List.filterMap_cons, List.filter_cons, hv] using ih
          · simpa [posRecords, posEntry, List.filterMap_cons, List.filter_cons, hv] using ih

lemma sum_map_div_mul (l : List PowerRecord) (T : ℚ) :
    (l.map (fun r => r.value / T * 100)).sum =
      (l.map (fun r => r.value)).sum / T * 100 := by
  induction l with
  | nil => simp
  | cons a l ih => simp [ih, add_div, add_mul]

lemma live_pct_sum {mix : List (String × Option ℚ)} (ts : String)
    (h : 0 < liveTotal mix) :
    ((live_result mix ts).records.map (fun r => r.percentage)).sum = 100 := by
  rw [live_result_eq]
  simp only [List.map_map]
  have hfun : ((fun r : PowerRecord => r.percentage) ∘ fun r =>
      { r with percentage :=
          if 0 < liveTotal mix then r.value / liveTotal mix * 100 else 0 })
      = fun r : PowerRecord => r.value / liveTotal mix * 100 := by
    funext r; simp [Function.comp, h]
  rw [hfun, sum_map_div_mul]
  show liveTotal mix / liveTotal mix * 100 = 100
  rw [div_self (ne_of_gt h), one_mul]

lemma live_pct_nonneg (mix : List (String × Option ℚ)) (ts : String) :
    ∀ r ∈ (live_result mix ts).records, 0 ≤ r.percentage := by
  rw [live_result_eq]
  intro r hr
  rcases List.mem_map.mp hr with ⟨q, hq, rfl⟩
  by_cases h : 0 < liveTotal mix
  · simp only [h, if_pos]
    exact mul_nonneg
      (div_nonneg (le_of_lt (posRecords_value_pos hq)) (le_of_lt h))
      (by norm_num)
  · simp [h]

lemma live_pct_sum_le (mix : List (String × Option ℚ)) (ts : String) :
    ((live_result mix ts).records.map (fun r => r.percentage)).sum ≤ 100 := by
  by_cases h : 0 < liveTotal mix
  · rw [live_pct_sum ts h]
  · rw [live_result_eq]
    simp only [List.map_map, h, if_neg, ite_false]
    have hz : ((fun r : PowerRecord => r.percentage) ∘ fun r : PowerRecord =>
        { source := r.source, value := r.value, percentage := (0 : ℚ) })
        = fun _ : PowerRecord => (0 : ℚ) := rfl
    rw [hz]
    simp

lemma renewable_pct_nonneg (l : List PowerRecord)
    (h : ∀ r ∈ l, 0 ≤ r.percentage) : 0 ≤ renewable_pct l := by
  apply List.sum_nonneg
  intro x hx
  rcases List.mem_map.mp hx with ⟨r, hr, rfl⟩
  exact h r (List.mem_of_mem_filter hr)

lemma renewable_pct_le_sum (l : List PowerRecord)
    (h : ∀ r ∈ l, 0 ≤ r.percentage) :
    renewable_pct l ≤ (l.map (fun r => r.percentage)).sum := by
  induction l with
  | nil => simp [renewable_pct]
  | cons a l ih =>
      have ha := h a (List.mem_cons_self a l)
      have ih2 := ih (fun r hr => h r (List.mem_cons_of_mem a hr))
      by_cases hc : renewable_sources.contains a.source
      · simp only [renewable_pct, List.filter_cons, hc, if_pos, List.map_cons,
          List.sum_cons] at ih2 ⊢
        exact add_le_add_left ih2 _
      · simp only [renewable_pct, List.filter_cons, hc, if_neg, List.map_cons,
          List.sum_cons, Bool.false_eq_true, ite_false] at ih2 ⊢
        calc ((List.filter (fun r => renewable_sources.contains r.source) l).map
              (fun r => r.percentage)).sum
            ≤ (l.map (fun r => r.percentage)).sum := ih2
          _ ≤ a.percentage + (l.map (fun r => r.percentage)).sum :=
              le_add_of_nonneg_left ha

lemma process_paths (a : Option ApiData) (u : Bool) (now : String) :
    process_kenya_data a u now = fallback_result now ∨
    ∃ mix ts, process_kenya_data a u now = live_result mix ts := by
  cases u with
  | false => exact Or.inl rfl
  | true =>
      cases a with
      | none => exact Or.inl rfl
      | some d =>
          cases hd : d.powerProductionBreakdown with
          | none => left; simp [process_kenya_data, hd]
          | some mix =>
              right
              exact ⟨mix, d.datetime.getD now, by simp [process_kenya_data, hd]⟩

lemma fallback_result_eq (now : String) :
    fallback_result now =
      ⟨KENYA_ENERGY_MIX.map (fun p => ⟨p.1, p.2 / 100 * 2800, p.2⟩),
        now, 2800, "Estimated Data"⟩ := by
  have ht : ((KENYA_ENERGY_MIX.map (fun p => p.2)).sum * 28 : ℚ) = 2800 := by
    norm_num [KENYA_ENERGY_MIX]
  simp only [fallback_result, ht]

/-- C1: on the live path, when the strictly positive breakdown entries
have positive total, the produced records' percentages (each one
`value / total * 100`) sum to exactly 100. -/
theorem C1_live_percentages_sum_100 (mix : List (String × Option ℚ))
    (dt : Option String) (now : String) (h : 0 < liveTotal mix) :
    (((process_kenya_data (some ⟨some mix, dt⟩) true now).records).map
      (fun r => r.percentage)).sum = 100 := by
  show ((live_result mix (dt.getD now)).records.map (fun r => r.percentage)).sum = 100
  exact live_pct_sum _ h

/-- Witness for C1 at the breakdown with hydro 800 and wind 0. -/
theorem C1_live_percentages_sum_100_witness :
    0 < liveTotal [("hydro", some 800), ("wind", some 0)] ∧
    (((process_kenya_data
        (some ⟨some [("hydro", some 800), ("wind", some 0)], none⟩) true
        "now").records).map (fun r => r.percentage)).sum = 100 :=
  ⟨by norm_num [liveTotal, posRecords, List.filterMap_cons],
   C1_live_percentages_sum_100 [("hydro", some 800), ("wind", some 0)] none
     "now" (by norm_num [liveTotal, posRecords, List.filterMap_cons])⟩

/-- C2: every fetch failure (`use_live` false or `api_data` absent)
yields exactly the fallback table's 8 records — same display names and
percentages, value `percentage / 100 * 2800` — with total
`100 * 28 = 2800` and the data-source label "Estimated Data",
independently of the failure's cause. -/
theorem C2_fallback_determinism (a : Option ApiData) (u : Bool)
    (now : String) (h : u = false ∨ a = none) :
    process_kenya_data a u now =
      ⟨KENYA_ENERGY_MIX.map (fun p => ⟨p.1, p.2 / 100 * 2800, p.2⟩),
        now, 2800, "Estimated Data"⟩ ∧
    (process_kenya_data a u now).records.length = 8 := by
  have hp : process_kenya_data a u now = fallback_result now := by
    rcases h with h | h
    · subst h; rfl
    · subst h; cases u <;> rfl
  rw [hp, fallback_result_eq]
  exact ⟨rfl, rfl⟩

/-- Witness for C2 on a failed fetch. -/
theorem C2_fallback_determinism_witness :
    process_kenya_data none false "t" =
      ⟨KENYA_ENERGY_MIX.map (fun p => ⟨p.1, p.2 / 100 * 2800, p.2⟩),
        "t", 2800, "Estimated Data"⟩ ∧
    (process_kenya_data none false "t").records.length = 8 :=
  C2_fallback_determinism none false "t" (Or.inr rfl)

/-- C3: `process_kenya_data` is total — every input yields a complete
SnapshotResult whose label is "Live Data" or "Estimated Data" — and the
percentage division is guarded: when the total is 0 every record's
percentage is 0. -/
theorem C3_normalization_total (a : Option ApiData) (u : Bool)
    (now : String) :
    ((process_kenya_data a u now).dataSource = "Live Data" ∨
      (process_kenya_data a u now).dataSource = "Estimated Data") ∧
    ((process_kenya_data a u now).total = 0 →
      ∀ r ∈ (process_kenya_data a u now).records, r.percentage = 0) := by
  rcases process_paths a u now with hp | ⟨mix, ts, hp⟩
  · rw [hp, fallback_result_eq]
    refine ⟨Or.inr rfl, ?_⟩
    intro h0
    norm_num at h0
  · rw [hp, live_result_eq]
    refine ⟨Or.inl rfl, ?_⟩
    intro h0 r hr
    have hn : ¬ 0 < liveTotal mix := by
      rw [show liveTotal mix = 0 from h0]
      exact lt_irrefl 0
    rcases List.mem_map.mp hr with ⟨q, hq, rfl⟩
    simp [hn]

/-- Witness for C3 on an empty live breakdown (total 0). -/
theorem C3_normalization_total_witness :
    ((process_kenya_data (some ⟨some [], none⟩) true "t").dataSource = "Live Data" ∨
      (process_kenya_data (some ⟨some [], none⟩) true "t").dataSource = "Estimated Data") ∧
    ((process_kenya_data (some ⟨some [], none⟩) true "t").total = 0 →
      ∀ r ∈ (process_kenya_data (some ⟨some [], none⟩) true "t").records,
        r.percentage = 0) :=
  C3_normalization_total (some ⟨some [], none⟩) true "t"

/-- C4 counterexample: a successful fetch with the breakdown key present
but the mapping EMPTY takes the live path, producing zero records, total
0 and the label "Live Data" — not the 8 fallback records with
"Estimated Data" the claim asserts. -/
theorem C4_counterexample :
    (process_kenya_data (some ⟨some [], some "2024-05-01T12:00:00Z"⟩)
        true "now").dataSource = "Live Data" ∧
    (process_kenya_data (some ⟨some [], some "2024-05-01T12:00:00Z"⟩)
        true "now").records = [] ∧
    (process_kenya_data (some ⟨some [], some "2024-05-01T12:00:00Z"⟩)
        true "now").total = 0 :=
  ⟨rfl, rfl, rfl⟩

/-- C4 amended: a successful fetch whose breakdown mapping is present
but empty still takes the live path, yielding an empty record list,
total 0 and the label "Live Data"; the fallback runs only when
`use_live` is false, `api_data` is absent, or the breakdown key is
absent. -/
theorem C4_empty_breakdown_is_live (dt : Option String) (now : String) :
    process_kenya_data (some ⟨some [], dt⟩) true now
      = ⟨[], dt.getD now, 0, "Live Data"⟩ := rfl

/-- C5: on the live path, entries whose value is absent, zero or
negative produce no record — the output has exactly one record per
strictly positive entry — and every produced record's value is the value
of some strictly positive entry of the breakdown. -/
theorem C5_zero_filtering (mix : List (String × Option ℚ))
    (dt : Option String) (now : String) :
    (process_kenya_data (some ⟨some mix, dt⟩) true now).records.length
        = (mix.filter posEntry).length ∧
    ∀ rec ∈ (process_kenya_data (some ⟨some mix, dt⟩) true now).records,
      ∃ s v, (s, some v) ∈ mix ∧ 0 < v ∧ rec.value = v := by
  have hp : process_kenya_data (some ⟨some mix, dt⟩) true now
      = live_result mix (dt.getD now) := rfl
  rw [hp, live_result_eq]
  constructor
  · simp only [List.length_map]
    exact posRecords_length mix
  · intro rec hrec
    rcases List.mem_map.mp hrec with ⟨q, hq, rfl⟩
    rcases mem_posRecords hq with ⟨s, v, hmem, hv, rfl⟩
    exact ⟨s, v, hmem, hv, rfl⟩

/-- Witness for C5 on a breakdown mixing positive, zero, negative and
absent values. -/
theorem C5_zero_filtering_witness :
    (process_kenya_data
        (some ⟨some [("hydro", some 5), ("wind", some 0),
                     ("solar", none), ("oil", some (-3))], none⟩)
        true "t").records.length
      = ([("hydro", some 5), ("wind", some 0),
          ("solar", none), ("oil", some (-3))].filter posEntry).length ∧
    ∀ rec ∈ (process_kenya_data
        (some ⟨some [("hydro", some 5), ("wind", some 0),
                     ("solar", none), ("oil", some (-3))], none⟩)
        true "t").records,
      ∃ s v, (s, some v) ∈ [("hydro", some 5), ("wind", some 0),
          ("solar", none), ("oil", some (-3))] ∧ 0 < v ∧ rec.value = v :=
  C5_zero_filtering
    [("hydro", some 5), ("wind", some 0), ("solar", none), ("oil", some (-3))]
    none "t"

/-- C6: every strictly positive live-path entry yields a record whose
display name is the source-mapping table's entry when the raw code is a
key of the table, and the title-cased raw code otherwise. -/
theorem C6_source_naming (mix : List (String × Option ℚ))
    (dt : Option String) (now : String) (s : String) (v : ℚ)
    (hmem : (s, some v) ∈ mix) (hv : 0 < v) :
    ∃ rec ∈ (process_kenya_data (some ⟨some mix, dt⟩) true now).records,
      rec.value = v ∧
      ((∃ n, List.lookup s source_mappings = some n ∧ rec.source = n) ∨
        (List.lookup s source_mappings = none ∧ rec.source = pyTitle s)) := by
  have hp : process_kenya_data (some ⟨some mix, dt⟩) true now
      = live_result mix (dt.getD now) := rfl
  rw [hp, live_result_eq]
  have hq : (⟨displayOf s, v, 0⟩ : PowerRecord) ∈ posRecords mix :=
    List.mem_filterMap.mpr ⟨(s, some v), hmem, by simp [hv]⟩
  refine ⟨_, List.mem_map_of_mem _ hq, rfl, ?_⟩
  cases hl : List.lookup s source_mappings with
  | some n => exact Or.inl ⟨n, rfl, by simp [displayOf, hl]⟩
  | none => exact Or.inr ⟨rfl, by simp [displayOf, hl]⟩

/-- Witness for C6 at the unmapped raw code "tidal". -/
theorem C6_source_naming_witness :
    ∃ rec ∈ (process_kenya_data
        (some ⟨some [("tidal", some 4)], none⟩) true "t").records,
      rec.value = 4 ∧
      ((∃ n, List.lookup "tidal" source_mappings = some n ∧ rec.source = n) ∨
        (List.lookup "tidal" source_mappings = none ∧
          rec.source = pyTitle "tidal")) :=
  C6_source_naming [("tidal", some 4)] none "t" "tidal" 4
    (List.mem_singleton.mpr rfl) (by norm_num)

/-- C7: Scenario A — on the breakdown with hydro 800, geothermal 700,
wind 0 and solar -5 and datetime "2024-05-01T12:00:00Z", the live path
yields exactly the two records Hydro (value 800, percentage 160/3 ≈
53.33) and Geothermal (value 700, percentage 140/3 ≈ 46.67), total 1500,
label "Live Data" and the payload's timestamp. -/
theorem C7_scenario_A :
    process_kenya_data
        (some ⟨some [("hydro", some 800), ("geothermal", some 700),
                     ("wind", some 0), ("solar", some (-5))],
               some "2024-05-01T12:00:00Z"⟩) true "now"
      = ⟨[⟨"Hydro", 800, 160/3⟩, ⟨"Geothermal", 700, 140/3⟩],
          "2024-05-01T12:00:00Z", 1500, "Live Data"⟩
    ∧ |(160 : ℚ)/3 - 53.33| < 1/100 ∧ |(140 : ℚ)/3 - 46.67| < 1/100 := by
  refine ⟨?_, by rw [abs_lt]; constructor <;> norm_num,
    by rw [abs_lt]; constructor <;> norm_num⟩
  have h1 : displayOf "hydro" = "Hydro" := by decide
  have h2 : displayOf "geothermal" = "Geothermal" := by decide
  show live_result _ _ = _
  rw [live_result_eq]
  norm_num [posRecords, liveTotal, List.filterMap_cons, h1, h2,
    SnapshotResult.mk.injEq, PowerRecord.mk.injEq]

/-- C8 counterexample: a 404 response is a failure, but the function
returns `(None, False)` with no warning and no cause string anywhere —
the claim's "every other outcome is a failure result carrying a
human-readable cause string" fails. -/
theorem C8_counterexample :
    (get_kenya_power_data (.response 404 (.ok ⟨some [("hydro", some 1)], none⟩))).ok
        = false ∧
    (get_kenya_power_data (.response 404 (.ok ⟨some [("hydro", some 1)], none⟩))).warning
        = none :=
  ⟨rfl, rfl⟩

/-- C8 amended: the function succeeds exactly when the status is 200 and
the decoded body has the breakdown key; no failure path raises; raised
exceptions and JSON decode failures surface the cause in a warning,
while non-200 responses and 200-responses lacking the breakdown key
return the failure pair with no cause string. -/
theorem C8_success_iff (o : HttpOutcome) :
    ((get_kenya_power_data o).ok = true ↔
      ∃ d, o = .response 200 (.ok d) ∧ d.powerProductionBreakdown.isSome = true) ∧
    ((get_kenya_power_data o).ok = false → (get_kenya_power_data o).data = none) ∧
    (∀ msg, o = .exception msg →
      (get_kenya_power_data o).warning = some ("Live data unavailable: " ++ msg)) ∧
    (∀ msg, o = .response 200 (.error msg) →
      (get_kenya_power_data o).warning = some ("Live data unavailable: " ++ msg)) ∧
    (∀ st b, o = .response st b → st ≠ 200 →
      (get_kenya_power_data o).warning = none) ∧
    (∀ d, o = .response 200 (.ok d) → d.powerProductionBreakdown = none →
      (get_kenya_power_data o).warning = none) := by
  rcases o with msg | ⟨st, b⟩
  · simp [get_kenya_power_data]
  · by_cases hst : st = 200
    · subst hst
      rcases b with msg | d
      · simp [get_kenya_power_data]
      · by_cases hb : d.powerProductionBreakdown.isSome
        · refine ⟨?_, ?_, ?_, ?_, ?_, ?_⟩ <;>
            simp [get_kenya_power_data, hb]
        · simp [get_kenya_power_data, hb]
    · simp [get_kenya_power_data, hst]

/-- Witness for C8 at a raised timeout exception. -/
theorem C8_success_iff_witness :
    ((get_kenya_power_data (.exception "timeout")).ok = true ↔
      ∃ d, HttpOutcome.exception "timeout" = .response 200 (.ok d) ∧
        d.powerProductionBreakdown.isSome = true) ∧
    ((get_kenya_power_data (.exception "timeout")).ok = false →
      (get_kenya_power_data (.exception "timeout")).data = none) ∧
    (∀ msg, HttpOutcome.exception "timeout" = .exception msg →
      (get_kenya_power_data (.exception "timeout")).warning
        = some ("Live data unavailable: " ++ msg)) ∧
    (∀ msg, HttpOutcome.exception "timeout" = .response 200 (.error msg) →
      (get_kenya_power_data (.exception "timeout")).warning
        = some ("Live data unavailable: " ++ msg)) ∧
    (∀ st b, HttpOutcome.exception "timeout" = .response st b → st ≠ 200 →
      (get_kenya_power_data (.exception "timeout")).warning = none) ∧
    (∀ d, HttpOutcome.exception "timeout" = .response 200 (.ok d) →
      d.powerProductionBreakdown = none →
      (get_kenya_power_data (.exception "timeout")).warning = none) :=
  C8_success_iff (.exception "timeout")

lemma renewable_pct_fallback (now : String) :
    renewable_pct ((fallback_result now).records) = 85.1 := by
  have m1 : ("Hydro" : String) ∈ renewable_sources := by decide
  have m2 : ("Geothermal" : String) ∈ renewable_sources := by decide
  have m3 : ("Thermal (Oil/Gas)" : String) ∉ renewable_sources := by decide
  have m4 : ("Wind" : String) ∈ renewable_sources := by decide
  have m5 : ("Solar" : String) ∈ renewable_sources := by decide
  have m6 : ("Biomass" : String) ∈ renewable_sources := by decide
  have m7 : ("Battery Storage" : String) ∉ renewable_sources := by decide
  have m8 : ("Imports" : String) ∉ renewable_sources := by decide
  rw [fallback_result_eq]
  norm_num [renewable_pct, KENYA_ENERGY_MIX, List.filter_cons,
    m1, m2, m3, m4, m5, m6, m7, m8]

/-- C9: for every result of `process_kenya_data`, the renewable share —
the sum of the percentages of the records whose source lies in
{Hydro, Geothermal, Wind, Solar, Biomass} — is between 0 and 100
inclusive, and on the fallback path it equals
36.2 + 31.1 + 8.9 + 6.8 + 2.1 = 85.1. -/
theorem C9_renewable_share_bound (a : Option ApiData) (u : Bool)
    (now : String) :
    0 ≤ renewable_pct (process_kenya_data a u now).records ∧
    renewable_pct (process_kenya_data a u now).records ≤ 100 ∧
    renewable_pct (process_kenya_data none false now).records = 85.1 := by
  obtain ⟨h0, h1⟩ : 0 ≤ renewable_pct (process_kenya_data a u now).records ∧
      renewable_pct (process_kenya_data a u now).records ≤ 100 := by
    rcases process_paths a u now with hp | ⟨mix, ts, hp⟩
    · rw [hp, renewable_pct_fallback]
      norm_num
    · rw [hp]
      exact ⟨renewable_pct_nonneg _ (live_pct_nonneg mix ts),
        le_trans (renewable_pct_le_sum _ (live_pct_nonneg mix ts))
          (live_pct_sum_le mix ts)⟩
  exact ⟨h0, h1, renewable_pct_fallback now⟩

/-- C10: on both paths the returned total equals the sum of the records'
value fields — the live loop accumulates exactly the appended values,
and on the fallback path both sides equal 2800. -/
theorem C10_total_is_value_sum (a : Option ApiData) (u : Bool)
    (now : String) :
    (process_kenya_data a u now).total
      = ((process_kenya_data a u now).records.map (fun r => r.value)).sum := by
  rcases process_paths a u now with hp | ⟨mix, ts, hp⟩
  · rw [hp, fallback_result_eq]
    norm_num [KENYA_ENERGY_MIX]
  · rw [hp, live_result_eq]
    show liveTotal mix = (((posRecords mix).map (fun r =>
        { r with percentage :=
            if 0 < liveTotal mix then r.value / liveTotal mix * 100 else 0 })).map
        (fun r => r.value)).sum
    rw [List.map_map]
    rfl
